import Mathlib

/-
  Shallow embedding of the finsync-services repository (Python, Firebase
  Cloud Functions) for checking its natural-language specification.

  Source files embedded:
    src/functions/verification.py      (send_verification_email, handle_verification_click)
    src/functions/notifications.py     (_format_amount)
    src/functions/resend_service.py    (get_resend_api_key, _ensure_resend_initialized, send_email)
    src/functions/informative_http.py  (send_informative)

  Modelling conventions:
  - The Firebase Realtime Database is an explicit association list from user
    id to user record, in index order; queries and updates are explicit
    functions on that list.
  - Python datetimes are a record of calendar components plus an optional
    UTC offset in minutes (absent offset = naive datetime); datetime
    .fromisoformat is a parser returning Option, comparison of a naive and
    an aware datetime is a TypeError, exactly as in CPython.
  - Python numbers are exact decimal values, a mantissa times a power of
    ten; the binary floating point representation error of CPython floats
    is outside the model, as are the inf and nan and underscore-digit
    spellings accepted by float().
  - Python truthiness is modelled field by field: an absent value and an
    empty string are both falsy where the source tests truthiness.
-/

namespace Finsync

/-! ## Small Python-flavoured string helpers -/

/-- Value of a list of decimal digit characters, most significant first. -/
def digitsVal (cs : List Char) : Nat :=
  cs.foldl (fun acc c => acc * 10 + (c.toNat - 48)) 0

/-- Left-pad the decimal rendering of a number with zeros to width k. -/
def padZeros (k : Nat) (n : Nat) : String :=
  let s := toString n
  String.mk (List.replicate (k - s.length) '0') ++ s

/-- Python str.rstrip with the single character slash. -/
def rstripSlash (s : String) : String :=
  String.mk ((s.toList.reverse.dropWhile (fun c => c = '/')).reverse)

/-- Python s.endswith(suffix). -/
def pyEndsWith (s suffix : String) : Bool :=
  suffix.toList.isSuffixOf s.toList

/-- Does pat occur as a contiguous run inside cs. -/
def containsSeq (pat : List Char) : List Char → Bool
  | [] => pat.isEmpty
  | c :: rest => pat.isPrefixOf (c :: rest) || containsSeq pat rest

/-- Python the in operator on strings: substring containment. -/
def pyContains (s sub : String) : Bool :=
  containsSeq sub.toList s.toList

/-- Python str.lower restricted to ASCII, which is all the sources use. -/
def pyLower (s : String) : String :=
  String.mk (s.toList.map Char.toLower)

/-- Python a or b on optional strings: first truthy value wins, the empty
string is falsy. -/
def pyOr (a b : Option String) : Option String :=
  match a with
  | some s => if s = "" then b else some s
  | Option.none => b

/-! ## Python datetime model

A CPython datetime: calendar components plus an optional fixed UTC offset
in minutes.  An absent offset is a naive datetime. -/

structure PyDateTime where
  year : Nat
  month : Nat
  day : Nat
  hour : Nat
  minute : Nat
  second : Nat
  microsecond : Nat
  utcOffsetMinutes : Option Int
deriving Repr, DecidableEq

/-- Proleptic Gregorian leap year test. -/
def isLeap (y : Nat) : Bool :=
  y % 4 = 0 && (y % 100 != 0 || y % 400 = 0)

/-- Days in a month of the proleptic Gregorian calendar. -/
def daysInMonth (y m : Nat) : Nat :=
  if m = 2 then (if isLeap y then 29 else 28)
  else if m = 4 || m = 6 || m = 9 || m = 11 then 30
  else 31

/-- Days from the civil epoch 1970-01-01 (standard civil-from-date
conversion on the proleptic Gregorian calendar). -/
def daysFromCivil (year : Int) (month day : Nat) : Int :=
  let y : Int := year - (if month ≤ 2 then 1 else 0)
  let era : Int := y.ediv 400
  let yoe : Int := y - era * 400
  let mp : Int := (month : Int) + (if month > 2 then -3 else 9)
  let doy : Int := (153 * mp + 2).ediv 5 + (day : Int) - 1
  let doe : Int := yoe * 365 + yoe.ediv 4 - yoe.ediv 100 + doy
  era * 146097 + doe - 719468

/-- Inverse of daysFromCivil: calendar date of a day count from the epoch. -/
def civilFromDays (z0 : Int) : Int × Nat × Nat :=
  let z : Int := z0 + 719468
  let era : Int := z.ediv 146097
  let doe : Nat := (z - era * 146097).toNat
  let yoe : Nat := (doe - doe / 1460 + doe / 36524 - doe / 146097) / 365
  let doy : Nat := doe - (365 * yoe + yoe / 4 - yoe / 100)
  let mp : Nat := (5 * doy + 2) / 153
  let d : Nat := doy - (153 * mp + 2) / 5 + 1
  let m : Nat := if mp < 10 then mp + 3 else mp - 9
  ((yoe : Int) + era * 400 + (if m ≤ 2 then 1 else 0), m, d)

/-- Microseconds of the instant denoted by a datetime: for an aware value
the UTC offset is subtracted; for a naive value the components are taken as
they stand (order on naive datetimes is componentwise, which this realises). -/
def toInstant (dt : PyDateTime) : Int :=
  let days := daysFromCivil (dt.year : Int) dt.month dt.day
  let usecOfDay : Int :=
    (((dt.hour * 3600 + dt.minute * 60 + dt.second) * 1000000 + dt.microsecond : Nat) : Int)
  days * 86400000000 + usecOfDay - (dt.utcOffsetMinutes.getD 0) * 60000000

/-- Python exceptions the embedded code can raise or leave uncaught. -/
inductive PyError
  | valueError
  | typeError
deriving Repr, DecidableEq

/-- Python strict greater-than on datetimes: comparing a naive and an aware
value raises TypeError; otherwise instants are compared. -/
def pyGT (a b : PyDateTime) : Except PyError Bool :=
  match a.utcOffsetMinutes, b.utcOffsetMinutes with
  | some _, some _ => Except.ok (decide (toInstant b < toInstant a))
  | Option.none, Option.none => Except.ok (decide (toInstant b < toInstant a))
  | _, _ => Except.error PyError.typeError

/-- datetime + timedelta: add microseconds to the calendar components,
keeping the tzinfo untouched, exactly as CPython timedelta addition does. -/
def addMicroseconds (dt : PyDateTime) (delta : Int) : PyDateTime :=
  let days := daysFromCivil (dt.year : Int) dt.month dt.day
  let usecOfDay : Int :=
    (((dt.hour * 3600 + dt.minute * 60 + dt.second) * 1000000 + dt.microsecond : Nat) : Int)
  let total : Int := days * 86400000000 + usecOfDay + delta
  let nd : Int := total.ediv 86400000000
  let rem : Nat := (total - nd * 86400000000).toNat
  let ymd := civilFromDays nd
  let secOfDay := rem / 1000000
  { year := ymd.1.toNat
    month := ymd.2.1
    day := ymd.2.2
    hour := secOfDay / 3600
    minute := secOfDay % 3600 / 60
    second := secOfDay % 60
    microsecond := rem % 1000000
    utcOffsetMinutes := dt.utcOffsetMinutes }

/-- datetime.isoformat(): date, the T separator, time, microseconds only
when nonzero, and the UTC offset when the value is aware. -/
def pyIsoformat (dt : PyDateTime) : String :=
  let datePart := padZeros 4 dt.year ++ "-" ++ padZeros 2 dt.month ++ "-" ++ padZeros 2 dt.day
  let timePart := padZeros 2 dt.hour ++ ":" ++ padZeros 2 dt.minute ++ ":" ++ padZeros 2 dt.second
  let fracPart := if dt.microsecond = 0 then "" else "." ++ padZeros 6 dt.microsecond
  let offPart :=
    match dt.utcOffsetMinutes with
    | Option.none => ""
    | some o =>
        (if o < 0 then "-" else "+") ++ padZeros 2 (o.natAbs / 60) ++ ":" ++ padZeros 2 (o.natAbs % 60)
  datePart ++ "T" ++ timePart ++ fracPart ++ offPart

/-! ## datetime.fromisoformat

Parser for the ISO-8601 subset accepted by CPython datetime.fromisoformat
(the pre-3.11 grammar, which covers everything datetime.isoformat emits):
YYYY-MM-DD, then optionally one separator character and
HH[:MM[:SS[.fff or .ffffff]]] with an optional +HH:MM or -HH:MM offset. -/

/-- Read exactly n decimal digits, returning their value and the rest. -/
def parseNDigits : Nat → List Char → Option (Nat × List Char)
  | 0, cs => some (0, cs)
  | n + 1, c :: cs =>
      if c.isDigit then
        (parseNDigits n cs).map (fun p => ((c.toNat - 48) * 10 ^ n + p.1, p.2))
      else Option.none
  | _ + 1, [] => Option.none

/-- Consume one expected character. -/
def expectChar (c : Char) : List Char → Option (List Char)
  | c2 :: rest => if c2 = c then some rest else Option.none
  | [] => Option.none

/-- Offset magnitude HH:MM in minutes, consuming the whole input. -/
def parseOffsetHM (cs : List Char) : Option Nat :=
  match parseNDigits 2 cs with
  | some (oh, r1) =>
      match expectChar ':' r1 with
      | some r2 =>
          match parseNDigits 2 r2 with
          | some (om, []) => if oh ≤ 23 ∧ om ≤ 59 then some (oh * 60 + om) else Option.none
          | _ => Option.none
      | Option.none => Option.none
  | Option.none => Option.none

/-- Optional signed UTC offset at the end of the time part; empty input
means a naive datetime. -/
def parseOffsetPart : List Char → Option (Option Int)
  | [] => some Option.none
  | '+' :: r => (parseOffsetHM r).map (fun v => some (v : Int))
  | '-' :: r => (parseOffsetHM r).map (fun v => some (-(v : Int)))
  | _ => Option.none

/-- Optional fractional seconds: exactly three or six digits, as CPython
requires, yielding microseconds. -/
def parseFracPart : List Char → Option (Nat × List Char)
  | '.' :: r =>
      let ds := r.takeWhile Char.isDigit
      let rest := r.dropWhile Char.isDigit
      if ds.length = 3 then some (digitsVal ds * 1000, rest)
      else if ds.length = 6 then some (digitsVal ds, rest)
      else Option.none
  | cs => some (0, cs)

/-- Optional seconds with optional fraction after HH:MM. -/
def parseSecondsPart : List Char → Option (Nat × Nat × List Char)
  | ':' :: r =>
      match parseNDigits 2 r with
      | some (ss, r1) =>
          match parseFracPart r1 with
          | some (us, r2) => some (ss, us, r2)
          | Option.none => Option.none
      | Option.none => Option.none
  | cs => some (0, 0, cs)

/-- Time of day with optional minutes, seconds, fraction and offset. -/
def parseTimePart (cs : List Char) : Option (Nat × Nat × Nat × Nat × Option Int) :=
  match parseNDigits 2 cs with
  | Option.none => Option.none
  | some (hh, r1) =>
      match r1 with
      | ':' :: r2 =>
          match parseNDigits 2 r2 with
          | Option.none => Option.none
          | some (mm, r3) =>
              match parseSecondsPart r3 with
              | Option.none => Option.none
              | some (ss, us, r4) =>
                  match parseOffsetPart r4 with
                  | Option.none => Option.none
                  | some off =>
                      if hh ≤ 23 ∧ mm ≤ 59 ∧ ss ≤ 59 then some (hh, mm, ss, us, off)
                      else Option.none
      | _ =>
          match parseOffsetPart r1 with
          | Option.none => Option.none
          | some off => if hh ≤ 23 then some (hh, 0, 0, 0, off) else Option.none

/-- datetime.fromisoformat: returns none where CPython raises ValueError. -/
def fromIso (s : String) : Option PyDateTime :=
  let cs := s.toList
  match parseNDigits 4 cs with
  | Option.none => Option.none
  | some (y, r1) =>
      match expectChar '-' r1 with
      | Option.none => Option.none
      | some r2 =>
          match parseNDigits 2 r2 with
          | Option.none => Option.none
          | some (mo, r3) =>
              match expectChar '-' r3 with
              | Option.none => Option.none
              | some r4 =>
                  match parseNDigits 2 r4 with
                  | Option.none => Option.none
                  | some (d, r5) =>
                      if 1 ≤ y ∧ y ≤ 9999 ∧ 1 ≤ mo ∧ mo ≤ 12 ∧ 1 ≤ d ∧ d ≤ daysInMonth y mo then
                        match r5 with
                        | [] => some ⟨y, mo, d, 0, 0, 0, 0, Option.none⟩
                        | _sep :: timecs =>
                            match parseTimePart timecs with
                            | Option.none => Option.none
                            | some (hh, mm, ss, us, off) => some ⟨y, mo, d, hh, mm, ss, us, off⟩
                      else Option.none

/-! ## Data model: user records in the Realtime Database

Only the keys the embedded functions read are modelled; a record whose
modelled keys are all absent plays the role of the empty dict (falsy). -/

structure Profile where
  email : Option String
deriving Repr, DecidableEq

structure Verification where
  token : Option String
  expires : Option String
deriving Repr, DecidableEq

structure UserRecord where
  email : Option String
  isVerified : Option Bool
  profile : Option Profile
  verification : Option Verification
deriving Repr, DecidableEq

/-- The database node under the users path: user id to record, in the order
the index enumerates them. -/
abbrev UserStore := List (String × UserRecord)

/-- Value at the nested path verification/token of a record. -/
def vtoken (u : UserRecord) : Option String :=
  u.verification.bind Verification.token

/-- Value at the nested path verification/expires of a record. -/
def vexpires (u : UserRecord) : Option String :=
  u.verification.bind Verification.expires

/-- Python not user_data on the modelled record: the record is the empty
dict, every modelled key absent. -/
def dictFalsy (u : UserRecord) : Bool :=
  u.email = Option.none && u.isVerified = Option.none &&
    u.profile = Option.none && u.verification = Option.none

/-- The query users.order_by_child("verification/token").equal_to(t)
.limit_to_first(1): the first record whose nested verification token equals
the given string, in index order. -/
def queryByToken (store : UserStore) (t : String) : Option (String × UserRecord) :=
  store.find? (fun p => vtoken p.2 == some t)

/-- db.reference(users/uid) updates applied to every entry under that key. -/
def updateUser (store : UserStore) (uid : String) (f : UserRecord → UserRecord) : UserStore :=
  store.map (fun p => if p.1 = uid then (p.1, f p.2) else p)

/-! ## verification.py: send_verification_email (the Issue operation) -/

/-- Hardcoded fallback base URL from verification.py line 13. -/
def DEFAULT_FUNCTION_BASE_URL : String :=
  "https://handle-verification-click-5czh4imcxq-uc.a.run.app"

/-- Lines 43-49 of verification.py: build the verification URL from the
configured base, appending the function path only when the base does not
already point at the endpoint. -/
def verificationUrlFromBase (base_url token : String) : String :=
  let function_path := "handle_verification_click"
  let base_clean := rstripSlash base_url
  if pyEndsWith (pyLower base_clean) ("/" ++ function_path) || pyContains (pyLower base_clean) "run.app" then
    base_clean ++ "?token=" ++ token
  else
    base_clean ++ "/" ++ function_path ++ "?token=" ++ token

/-- Lines 50-51: resolve the recipient address, flat key first, then the
one nested under profile, empty strings being falsy; the final truthiness
test on line 52 folds in as returning none for an empty string. -/
def resolveEmail (u : UserRecord) : Option String :=
  match pyOr u.email (u.profile.bind Profile.email) with
  | some s => if s = "" then Option.none else some s
  | Option.none => Option.none

/-- Outbound email parameters passed to resend_service.send_email. -/
structure EmailParams where
  fromAddr : String
  toAddrs : List String
  subject : String
  html : String
deriving Repr, DecidableEq

/-- The f-string body of the verification email (lines 61-65). -/
def verificationHtml (verification_url : String) : String :=
  "\n            <h1>Welcome to Our App!</h1>\n            <p>Click the link below to verify your email. It expires in 1 hour.</p>\n            <a href=\"" ++ verification_url ++ "\"><strong>Verify My Email</strong></a>\n        "

/-- Observable effects of one send_verification_email invocation: the
verification sub-record write, if any, and the email handed to the
delivery gateway, if any. -/
structure IssueEffect where
  verificationWrite : Option (String × String)
  emailSent : Option EmailParams
deriving Repr, DecidableEq

/-- send_verification_email from verification.py.  The event data, the
generated token and the current time are parameters; the two environment
variables are passed as read.  The returned effect records the database
write and the attempted send. -/
def send_verification_email (userData : Option UserRecord) (envFunctionBase envVerificationBase : Option String)
    (token : String) (now : PyDateTime) : IssueEffect :=
  match userData with
  | Option.none => { verificationWrite := Option.none, emailSent := Option.none }
  | some u =>
      if dictFalsy u || u.isVerified = some true then
        { verificationWrite := Option.none, emailSent := Option.none }
      else
        let expires := pyIsoformat (addMicroseconds now 3600000000)
        let base_url := (pyOr (pyOr envFunctionBase envVerificationBase) (some DEFAULT_FUNCTION_BASE_URL)).getD ""
        let verification_url := verificationUrlFromBase base_url token
        match resolveEmail u with
        | Option.none => { verificationWrite := some (token, expires), emailSent := Option.none }
        | some email =>
            { verificationWrite := some (token, expires)
              emailSent := some
                { fromAddr := "Onboarding <onboarding@finsyncdigitalservice.com>"
                  toAddrs := [email]
                  subject := "Welcome! Please Verify Your Email"
                  html := verificationHtml verification_url } }

/-! ## verification.py: handle_verification_click (validate and consume) -/

/-- The four HTTP responses the click handler can return, by source line:
missing token 400, not found 404, expired 400, and the success page 200. -/
inductive ClickResponse
  | missingToken
  | notFound
  | expired
  | success
deriving Repr, DecidableEq

/-- HTTP status carried by each click handler response. -/
def ClickResponse.status : ClickResponse → Nat
  | .missingToken => 400
  | .notFound => 404
  | .expired => 400
  | .success => 200

/-- handle_verification_click from verification.py: token from the query
string (absent query parameter modelled as none), lookup by nested token,
expiry check against the current time, then the two updates marking the
user verified and clearing the verification sub-record.  An uncaught
Python exception is the error case. -/
def handle_verification_click (store : UserStore) (now : PyDateTime) (tokenArg : Option String) :
    Except PyError (ClickResponse × UserStore) :=
  let token := tokenArg.getD ""
  if token = "" then Except.ok (ClickResponse.missingToken, store)
  else
    match queryByToken store token with
    | Option.none => Except.ok (ClickResponse.notFound, store)
    | some (user_id, user_data) =>
        let verification := user_data.verification.getD { token := Option.none, expires := Option.none }
        match verification.expires with
        | Option.none => Except.ok (ClickResponse.notFound, store)
        | some expires_str =>
            if expires_str = "" then Except.ok (ClickResponse.notFound, store)
            else
              match fromIso expires_str with
              | Option.none => Except.error PyError.valueError
              | some expires =>
                  match pyGT now expires with
                  | Except.error e => Except.error e
                  | Except.ok true => Except.ok (ClickResponse.expired, store)
                  | Except.ok false =>
                      let store1 := updateUser store user_id (fun u => { u with isVerified := some true })
                      let store2 := updateUser store1 user_id (fun u =>
                        { u with verification := some { token := Option.none, expires := Option.none } })
                      Except.ok (ClickResponse.success, store2)

/-! ## notifications.py: the _format_amount helper

The dispatcher reads amount and balance out of free-form JSON payloads, so
the argument domain is the scalar JSON values: absent (None), strings,
numbers and booleans.  Numbers are exact rationals. -/

/-- An exact decimal number: mant times ten to pow10. -/
structure PyNum where
  mant : Int
  pow10 : Int
deriving Repr, DecidableEq

inductive PyVal
  | none
  | str (s : String)
  | num (n : PyNum)
  | bool (b : Bool)
deriving Repr, DecidableEq

/-- Exponent suffix of a float literal: empty, or e or E followed by an
optionally signed run of digits filling the rest of the input. -/
def parseExpPart : List Char → Option Int
  | [] => some 0
  | 'e' :: rest => parseSignedDigits rest
  | 'E' :: rest => parseSignedDigits rest
  | _ => Option.none
where
  parseSignedDigits : List Char → Option Int
    | '+' :: rest => parseDigitsAll rest
    | '-' :: rest => (parseDigitsAll rest).map Neg.neg
    | cs => parseDigitsAll cs
  parseDigitsAll (cs : List Char) : Option Int :=
    if cs ≠ [] ∧ cs.all Char.isDigit then some (digitsVal cs) else Option.none

/-- Unsigned float literal: digits with an optional point and fraction,
at least one digit overall, then an optional exponent. -/
def parseFloatNoSign (cs : List Char) : Option PyNum :=
  let ip := cs.takeWhile Char.isDigit
  let r1 := cs.dropWhile Char.isDigit
  match r1 with
  | '.' :: rest =>
      let fp := rest.takeWhile Char.isDigit
      let r2 := rest.dropWhile Char.isDigit
      if ip = [] ∧ fp = [] then Option.none
      else
        (parseExpPart r2).map (fun ex =>
          { mant := (digitsVal (ip ++ fp) : Int), pow10 := ex - (fp.length : Int) })
  | _ =>
      if ip = [] then Option.none
      else (parseExpPart r1).map (fun ex => { mant := (digitsVal ip : Int), pow10 := ex })

/-- Python float(s) on a string: surrounding whitespace stripped, optional
sign, then an unsigned float literal consuming the whole input (the inf,
nan and underscored-digit spellings are outside the model). -/
def parseFloatString (s : String) : Option PyNum :=
  let cs := s.toList.dropWhile Char.isWhitespace
  let cs := (cs.reverse.dropWhile Char.isWhitespace).reverse
  match cs with
  | '+' :: rest => parseFloatNoSign rest
  | '-' :: rest => (parseFloatNoSign rest).map (fun n => { n with mant := -n.mant })
  | _ => parseFloatNoSign cs

/-- Python float(value): numbers and booleans convert, strings parse, None
raises TypeError (none here), unparseable strings raise ValueError. -/
def pyFloat : PyVal → Option PyNum
  | PyVal.none => Option.none
  | PyVal.str s => parseFloatString s
  | PyVal.num n => some n
  | PyVal.bool b => some { mant := if b then 1 else 0, pow10 := 0 }

/-- Round a nonnegative fraction a over d to the nearest natural number,
ties to the even one, the rounding CPython fixed-point formatting applies. -/
def roundHalfEvenNat (a d : Nat) : Nat :=
  let q := a / d
  let r := a % d
  if 2 * r < d then q
  else if d < 2 * r then q + 1
  else if q % 2 = 0 then q else q + 1

/-- Absolute value of a decimal number scaled by one hundred and rounded
half-to-even to an integer: the cent count of the ,.2f rendering. -/
def scaledCents (n : PyNum) : Nat :=
  let e : Int := n.pow10 + 2
  if 0 ≤ e then n.mant.natAbs * 10 ^ e.toNat
  else roundHalfEvenNat n.mant.natAbs (10 ^ (-e).toNat)

/-- Insert a comma after every three characters of a reversed digit list. -/
def groupRev : List Char → List Char
  | a :: b :: c :: d :: rest => a :: b :: c :: ',' :: groupRev (d :: rest)
  | cs => cs

/-- Decimal rendering of a natural number with thousands separators. -/
def groupThousands (n : Nat) : String :=
  String.mk ((groupRev (toString n).toList.reverse).reverse)

/-- The format spec ,.2f applied to an exact decimal value: sign,
thousands separated integer part, point, two rounded decimal digits. -/
def commaFixed2 (n : PyNum) : String :=
  let c := scaledCents n
  (if n.mant < 0 then "-" else "") ++ groupThousands (c / 100) ++ "." ++ padZeros 2 (c % 100)

/-- Python str(value) on the modelled scalar values.  In _format_amount it
is only reached for values float() rejects, hence never for numbers or
booleans; their branches follow str() anyway. -/
def pyStr : PyVal → String
  | PyVal.none => "None"
  | PyVal.str s => s
  | PyVal.num n => toString n.mant ++ "e" ++ toString n.pow10
  | PyVal.bool b => if b then "True" else "False"

/-- Lines 58-63 of notifications.py with the currency symbol argument
explicit: format float(value) as currency on success; on an exception
return str(value), except for None which becomes the em-dash. -/
def format_amount_with (currency_symbol : String) (value : PyVal) : String :=
  match pyFloat value with
  | some num => currency_symbol ++ commaFixed2 num
  | Option.none => if value = PyVal.none then "—" else pyStr value

/-- _format_amount at its default currency symbol. -/
def _format_amount (value : PyVal) : String :=
  format_amount_with "₦" value

/-! ## resend_service.py: the Email Delivery Gateway -/

/-- Optional send_email arguments after truthiness filtering; the list and
dict shapes the provider also accepts are abstracted as strings, which no
claim depends on. -/
structure ResendParams where
  fromAddr : String
  toAddrs : List String
  subject : String
  html : String
  reply_to : Option String
  bcc : Option String
  cc : Option String
  tags : Option String
deriving Repr, DecidableEq

/-- Outcome of the provider call resend.Emails.send. -/
inductive SendOutcome
  | ok (resp : String)
  | raises (err : String)
deriving Repr, DecidableEq

/-- The module-level cache of resend_service.py. -/
structure ResendState where
  cachedApiKey : Option String
  initialized : Bool
deriving Repr, DecidableEq

/-- Errors raised out of the gateway itself. -/
inductive ResendError
  | missingApiKey
deriving Repr, DecidableEq

/-- get_resend_api_key: the secret parameter first when it is available and
truthy, then the environment variable.  A raised secret access is secretVal
none; an unset environment variable is envVal none. -/
def get_resend_api_key (secretVal envVal : Option String) : Option String :=
  match secretVal with
  | some v => if v = "" then envVal else some v
  | Option.none => envVal

/-- _ensure_resend_initialized: skip when the warm-instance cache holds a
truthy key, otherwise resolve a key or raise ValueError. -/
def ensure_resend_initialized (st : ResendState) (secretVal envVal : Option String) :
    Except ResendError ResendState :=
  if st.initialized && (match st.cachedApiKey with | some k => decide (k ≠ "") | Option.none => false) then
    Except.ok st
  else
    match get_resend_api_key secretVal envVal with
    | Option.none => Except.error ResendError.missingApiKey
    | some key =>
        if key = "" then Except.error ResendError.missingApiKey
        else Except.ok { cachedApiKey := some key, initialized := true }

/-- Include an optional argument only when truthy, as the if guards on
lines 67-74 do. -/
def keepTruthy (v : Option String) : Option String :=
  match v with
  | some s => if s = "" then Option.none else some s
  | Option.none => Option.none

/-- send_email from resend_service.py: ensure initialization (its
ValueError propagates), build the params with only truthy optionals, then
call the provider; a provider exception is caught and None is returned. -/
def send_email (st : ResendState) (secretVal envVal : Option String)
    (provider : ResendParams → SendOutcome)
    (from_addr : String) (toAddrs : List String) (subject html : String)
    (reply_to bcc cc tags : Option String) :
    Except ResendError (ResendState × Option String) :=
  match ensure_resend_initialized st secretVal envVal with
  | Except.error e => Except.error e
  | Except.ok st1 =>
      let params : ResendParams :=
        { fromAddr := from_addr, toAddrs := toAddrs, subject := subject, html := html
          reply_to := keepTruthy reply_to, bcc := keepTruthy bcc
          cc := keepTruthy cc, tags := keepTruthy tags }
      match provider params with
      | SendOutcome.ok resp => Except.ok (st1, some resp)
      | SendOutcome.raises _ => Except.ok (st1, Option.none)

/-! ## informative_http.py: the send_informative HTTP handler -/

/-- JSON values of the request body. -/
inductive JVal
  | jnull
  | jbool (b : Bool)
  | jnum (n : PyNum)
  | jstr (s : String)
  | jarr (xs : List JVal)
deriving Repr

/-- Python truthiness of a JSON value (a decimal number is falsy exactly
when its mantissa is zero). -/
def JVal.truthy : JVal → Bool
  | JVal.jnull => false
  | JVal.jbool b => b
  | JVal.jnum n => if n.mant = 0 then false else true
  | JVal.jstr s => if s = "" then false else true
  | JVal.jarr xs => !xs.isEmpty

/-- isinstance(x, str) on a JSON value. -/
def JVal.isStr : JVal → Bool
  | JVal.jstr _ => true
  | _ => false

/-- Truthiness of data.get(k). -/
def truthyOpt (v : Option JVal) : Bool :=
  match v with
  | some x => x.truthy
  | Option.none => false

/-- The responses _json_response builds in send_informative, by source
line: 405 for a non-POST method, the 400 listing the required fields, the
400 for a malformed to field, the 500 wrapping a send-time exception, and
the 200 success payload echoing the recipient list and subject. -/
inductive InformativeResponse
  | methodNotAllowed
  | missingFields
  | badToType
  | sendFailed (msg : String)
  | okSent (toAddrs : List String) (subject : JVal) (providerResponse : String)
deriving Repr

/-- HTTP status of each response. -/
def InformativeResponse.status : InformativeResponse → Nat
  | .methodNotAllowed => 405
  | .missingFields => 400
  | .badToType => 400
  | .sendFailed _ => 500
  | .okSent _ _ _ => 200

/-- Strings of a JSON array known to contain only strings. -/
def jStrings : List JVal → List String
  | [] => []
  | JVal.jstr s :: rest => s :: jStrings rest
  | _ :: rest => jStrings rest

/-- send_informative from informative_http.py.  The request is its method
and parsed JSON body (none for an unreadable body, which get_json silent
maps to None and the following or to the empty dict); the outcome of
send_informative_email is the sendResult oracle, its exception message on
the error side and str(result) on the ok side. -/
def send_informative (method : String) (jsonBody : Option (List (String × JVal)))
    (sendResult : Except String String) : InformativeResponse :=
  if method ≠ "POST" then InformativeResponse.methodNotAllowed
  else
    let data := jsonBody.getD []
    let subject := data.lookup "subject"
    let body_text := data.lookup "body"
    let to_field := data.lookup "to"
    if !truthyOpt subject || !truthyOpt body_text || !truthyOpt to_field then
      InformativeResponse.missingFields
    else
      match to_field with
      | some (JVal.jstr s) => sendWith [s] (subject.getD JVal.jnull)
      | some (JVal.jarr xs) =>
          if xs.all JVal.isStr then sendWith (jStrings xs) (subject.getD JVal.jnull)
          else InformativeResponse.badToType
      | _ => InformativeResponse.badToType
where
  sendWith (to_list : List String) (subj : JVal) : InformativeResponse :=
    match sendResult with
    | Except.error e => InformativeResponse.sendFailed e
    | Except.ok r => InformativeResponse.okSent to_list subj r

/-! ## Sample values used by witnesses and counterexamples -/

/-- A user record as issuance leaves it: unverified, with a live token. -/
def uIssued : UserRecord :=
  ⟨some "user@example.com", some false, Option.none,
    some ⟨some "tok", some "2030-01-01T00:00:00+00:00"⟩⟩

/-- The parsed form of the sample expiry string. -/
def expSample : PyDateTime := ⟨2030, 1, 1, 0, 0, 0, 0, some 0⟩

/-- An aware instant before the sample expiry. -/
def nowEarly : PyDateTime := ⟨2029, 1, 1, 0, 0, 0, 0, some 0⟩

/-- An aware instant after the sample expiry. -/
def nowLate : PyDateTime := ⟨2031, 1, 1, 0, 0, 0, 0, some 0⟩

/-- A store holding exactly the sample issued record. -/
def storeIssued : UserStore := [("u1", uIssued)]

/-- A record whose stored expiry string is not ISO-8601. -/
def uGarbage : UserRecord :=
  ⟨Option.none, Option.none, Option.none, some ⟨some "tok", some "not-a-date"⟩⟩

/-- A record whose stored expiry string parses to a naive datetime. -/
def uNaiveExp : UserRecord :=
  ⟨Option.none, Option.none, Option.none, some ⟨some "tok", some "2030-01-01T00:00:00"⟩⟩

/-! ## Theorems -/

/-- String concatenation is associative; proved by cases since the claims
below relate differently grouped concatenations. -/
theorem strAppendAssoc (a b c : String) : a ++ b ++ c = a ++ (b ++ c) := by
  cases a with
  | mk as =>
    cases b with
    | mk bs =>
      cases c with
      | mk cs =>
        show String.mk (as ++ bs ++ cs) = String.mk (as ++ (bs ++ cs))
        rw [List.append_assoc]

/-- The else branch of the URL builder: a base neither ending in the
endpoint path nor on the run.app domain gets the path segment appended. -/
theorem verificationUrl_append_of_not_endpoint (base t : String)
    (h1 : pyEndsWith (pyLower (rstripSlash base)) "/handle_verification_click" = false)
    (h2 : pyContains (pyLower (rstripSlash base)) "run.app" = false) :
    verificationUrlFromBase base t
      = rstripSlash base ++ "/handle_verification_click?token=" ++ t := by
  have h1a : pyEndsWith (pyLower (rstripSlash base)) ("/" ++ "handle_verification_click") = false := h1
  simp only [verificationUrlFromBase, h1a, h2, Bool.or_self, Bool.false_eq_true, if_false]
  simp only [strAppendAssoc]
  rfl

/-- C5: the verification URL builder never duplicates the endpoint path
segment: a base already ending in the path segment and a base on the
run.app direct-invocation domain get only the token query string appended
to the cleaned base, while any other base gets the path segment inserted
before the query string. -/
theorem C5_url_no_duplicate_segment (t : String) :
    verificationUrlFromBase "https://host/handle_verification_click" t
      = "https://host/handle_verification_click?token=" ++ t
  ∧ verificationUrlFromBase "https://x.run.app" t = "https://x.run.app?token=" ++ t
  ∧ verificationUrlFromBase "https://example.com/api" t
      = "https://example.com/api/handle_verification_click?token=" ++ t
  ∧ (∀ base, pyEndsWith (pyLower (rstripSlash base)) "/handle_verification_click" = false →
        pyContains (pyLower (rstripSlash base)) "run.app" = false →
        verificationUrlFromBase base t
          = rstripSlash base ++ "/handle_verification_click?token=" ++ t) :=
  ⟨rfl, rfl, rfl, fun base h1 h2 => verificationUrl_append_of_not_endpoint base t h1 h2⟩

/-- C5 witness: the generic append branch at a concrete base and token. -/
theorem C5_url_witness :
    pyEndsWith (pyLower (rstripSlash "https://api.example.org/v1")) "/handle_verification_click" = false
  ∧ pyContains (pyLower (rstripSlash "https://api.example.org/v1")) "run.app" = false
  ∧ verificationUrlFromBase "https://api.example.org/v1" "T"
      = rstripSlash "https://api.example.org/v1" ++ "/handle_verification_click?token=" ++ "T" :=
  ⟨rfl, rfl, (C5_url_no_duplicate_segment "T").2.2.2 "https://api.example.org/v1" rfl rfl⟩

/-- C3 counterexample: the formatter maps the empty string (a non-numeric
value) to the empty string, not to the em-dash placeholder the claim
requires. -/
theorem C3_counterexample :
    _format_amount (PyVal.str "") = "" ∧ ¬ _format_amount (PyVal.str "") = "—" := by
  refine ⟨rfl, ?_⟩
  intro h
  exact absurd ((rfl : _format_amount (PyVal.str "") = "").symm.trans h) (by decide)

/-- C3 amended: values float() accepts are formatted as the fixed symbol
followed by the thousands-separated two-decimal rendering (1234.5, whether
a number or a numeric string, gives the naira rendering of 1,234.50);
None maps to the em-dash placeholder; every other non-numeric value maps
to str(value) unchanged. -/
theorem C3_amended_formatting (s : String) (hs : parseFloatString s = Option.none) :
    _format_amount (PyVal.num ⟨12345, -1⟩) = "₦1,234.50"
  ∧ _format_amount (PyVal.str "1234.5") = "₦1,234.50"
  ∧ _format_amount PyVal.none = "—"
  ∧ _format_amount (PyVal.str s) = s
  ∧ (∀ v n, pyFloat v = some n → _format_amount v = "₦" ++ commaFixed2 n) := by
  refine ⟨rfl, rfl, rfl, ?_, ?_⟩
  · simp [_format_amount, format_amount_with, pyFloat, hs, pyStr]
  · intro v n hv
    simp [_format_amount, format_amount_with, hv]

/-- C3 witness: the amended pass-through branch at a concrete non-numeric
string. -/
theorem C3_amended_witness :
    parseFloatString "abc" = Option.none ∧ _format_amount (PyVal.str "abc") = "abc" :=
  ⟨rfl, (C3_amended_formatting "abc" rfl).2.2.2.1⟩

/-- C8: whenever initialization succeeds and the provider send call
raises, send_email returns the no-result sentinel None rather than
propagating the provider exception. -/
theorem C8_provider_exception_returns_none (st st1 : ResendState)
    (secretVal envVal : Option String) (provider : ResendParams → SendOutcome)
    (from_addr : String) (toAddrs : List String) (subject html : String)
    (reply_to bcc cc tags : Option String)
    (hinit : ensure_resend_initialized st secretVal envVal = Except.ok st1)
    (hraise : ∀ p, ∃ err, provider p = SendOutcome.raises err) :
    send_email st secretVal envVal provider from_addr toAddrs subject html reply_to bcc cc tags
      = Except.ok (st1, Option.none) := by
  obtain ⟨err, herr⟩ := hraise
    { fromAddr := from_addr, toAddrs := toAddrs, subject := subject, html := html
      reply_to := keepTruthy reply_to, bcc := keepTruthy bcc
      cc := keepTruthy cc, tags := keepTruthy tags }
  simp [send_email, hinit, herr]

/-- C8 witness: a cold gateway with a key and an always-raising provider. -/
theorem C8_witness :
    ensure_resend_initialized ⟨Option.none, false⟩ (some "key") Option.none
      = Except.ok ⟨some "key", true⟩
  ∧ send_email ⟨Option.none, false⟩ (some "key") Option.none
      (fun _ => SendOutcome.raises "boom") "f" ["t@x"] "s" "h"
      Option.none Option.none Option.none Option.none
      = Except.ok (⟨some "key", true⟩, Option.none) :=
  ⟨rfl, C8_provider_exception_returns_none ⟨Option.none, false⟩ ⟨some "key", true⟩
    (some "key") Option.none (fun _ => SendOutcome.raises "boom") "f" ["t@x"] "s" "h"
    Option.none Option.none Option.none Option.none rfl (fun _ => ⟨"boom", rfl⟩)⟩

/-- A user record already marked verified. -/
def uVerified : UserRecord :=
  ⟨some "user@example.com", some true, Option.none, Option.none⟩

/-- An unverified record with no email anywhere, isVerified present so the
record is not the empty dict. -/
def uNoEmail : UserRecord :=
  ⟨Option.none, some false, Option.none, Option.none⟩

/-- A second issued record with an expiry in the past. -/
def uIssued2 : UserRecord :=
  ⟨Option.none, some false, Option.none, some ⟨some "tok2", some "2020-06-15T12:00:00+00:00"⟩⟩

/-- The parsed form of the second sample expiry string. -/
def expSample2 : PyDateTime := ⟨2020, 6, 15, 12, 0, 0, 0, some 0⟩

/-- C7: when the triggering record is absent or already verified,
send_verification_email is a no-op: no verification sub-record write and
no email handed to the gateway. -/
theorem C7_issue_noop_when_precondition_fails (userData : Option UserRecord)
    (envF envV : Option String) (token : String) (now : PyDateTime)
    (h : userData = Option.none ∨ ∃ u, userData = some u ∧ u.isVerified = some true) :
    send_verification_email userData envF envV token now
      = { verificationWrite := Option.none, emailSent := Option.none } := by
  rcases h with h | ⟨u, hu, hv⟩
  · subst h
    rfl
  · subst hu
    simp [send_verification_email, hv]

/-- C7 witness: the already-verified record and the absent record. -/
theorem C7_witness :
    send_verification_email (some uVerified) Option.none Option.none "tok" nowEarly
      = { verificationWrite := Option.none, emailSent := Option.none }
  ∧ send_verification_email Option.none Option.none Option.none "tok" nowEarly
      = { verificationWrite := Option.none, emailSent := Option.none } :=
  ⟨C7_issue_noop_when_precondition_fails (some uVerified) Option.none Option.none "tok" nowEarly
      (Or.inr ⟨uVerified, rfl, rfl⟩),
   C7_issue_noop_when_precondition_fails Option.none Option.none Option.none "tok" nowEarly
      (Or.inl rfl)⟩

/-- C6: an unverified, non-empty record with no resolvable email still gets
a fresh token and expiry written into its verification sub-record before
the send is aborted; no email is handed to the gateway. -/
theorem C6_issue_writes_token_despite_missing_email (u : UserRecord)
    (envF envV : Option String) (token : String) (now : PyDateTime)
    (hne : dictFalsy u = false) (hver : ¬ u.isVerified = some true)
    (hmail : resolveEmail u = Option.none) :
    send_verification_email (some u) envF envV token now
      = { verificationWrite := some (token, pyIsoformat (addMicroseconds now 3600000000))
          emailSent := Option.none } := by
  simp [send_verification_email, hne, hver, hmail]

/-- C6 witness: a record with isVerified false and no email fields. -/
theorem C6_witness :
    dictFalsy uNoEmail = false ∧ resolveEmail uNoEmail = Option.none
  ∧ send_verification_email (some uNoEmail) Option.none Option.none "tok" nowEarly
      = { verificationWrite := some ("tok", pyIsoformat (addMicroseconds nowEarly 3600000000))
          emailSent := Option.none } :=
  ⟨rfl, rfl,
   C6_issue_writes_token_despite_missing_email uNoEmail Option.none Option.none "tok" nowEarly
     rfl (by decide) rfl⟩

/-- C10: the click handler has reachable inputs on which it raises an
uncaught exception instead of answering: a stored expiry string that is
not ISO-8601 raises ValueError from fromisoformat, and one that parses to
a naive datetime raises TypeError from the comparison with the aware
current time; by contrast the expiry strings written by issuance parse
back to aware datetimes, as the sample round trip shows. -/
theorem C10_bad_expires_raises_uncaught :
    (∃ store now t, handle_verification_click store now (some t) = Except.error PyError.valueError)
  ∧ (∃ store now t, handle_verification_click store now (some t) = Except.error PyError.typeError)
  ∧ fromIso (pyIsoformat (addMicroseconds nowEarly 3600000000))
      = some ⟨2029, 1, 1, 1, 0, 0, 0, some 0⟩ :=
  ⟨⟨[("u1", uGarbage)], nowEarly, "tok", rfl⟩,
   ⟨[("u1", uNaiveExp)], nowEarly, "tok", rfl⟩, rfl⟩

/-- The nested expires read the handler performs agrees with vexpires. -/
theorem getD_verification_expires (u : UserRecord) :
    (u.verification.getD { token := Option.none, expires := Option.none }).expires = vexpires u := by
  obtain ⟨em, iv, pr, ve⟩ := u
  cases ve <;> rfl

/-- Empty or absent token: the handler answers the missing-token 400. -/
theorem click_missing_token (store : UserStore) (now : PyDateTime) :
    handle_verification_click store now Option.none = Except.ok (ClickResponse.missingToken, store)
  ∧ handle_verification_click store now (some "") = Except.ok (ClickResponse.missingToken, store) :=
  ⟨rfl, rfl⟩

/-- No record matches the token: the handler answers 404 and writes nothing. -/
theorem click_notFound_of_no_match (store : UserStore) (now : PyDateTime) (t : String)
    (ht : ¬ t = "") (hq : queryByToken store t = Option.none) :
    handle_verification_click store now (some t) = Except.ok (ClickResponse.notFound, store) := by
  simp [handle_verification_click, ht, hq]

/-- Matched record lacks a truthy expires: 404 and no write. -/
theorem click_notFound_of_no_expires (store : UserStore) (now : PyDateTime) (t uid : String)
    (u : UserRecord) (ht : ¬ t = "") (hq : queryByToken store t = some (uid, u))
    (hes : vexpires u = Option.none ∨ vexpires u = some "") :
    handle_verification_click store now (some t) = Except.ok (ClickResponse.notFound, store) := by
  rcases hes with hes | hes <;>
    simp [handle_verification_click, ht, hq, getD_verification_expires, hes]

/-- Expiry parsed, both datetimes aware, expiry strictly in the past:
the handler answers 400 expired and writes nothing. -/
theorem click_expired_of (store : UserStore) (now : PyDateTime) (t uid : String)
    (u : UserRecord) (es : String) (e : PyDateTime)
    (ht : ¬ t = "") (hq : queryByToken store t = some (uid, u))
    (hes : vexpires u = some es) (hesne : ¬ es = "")
    (hparse : fromIso es = some e)
    (ho : now.utcOffsetMinutes.isSome = true) (he : e.utcOffsetMinutes.isSome = true)
    (hlt : toInstant e < toInstant now) :
    handle_verification_click store now (some t) = Except.ok (ClickResponse.expired, store) := by
  obtain ⟨a, ha⟩ := Option.isSome_iff_exists.mp ho
  obtain ⟨b, hb⟩ := Option.isSome_iff_exists.mp he
  simp [handle_verification_click, ht, hq, getD_verification_expires, hes, hesne, hparse,
    pyGT, ha, hb, hlt]

/-- C2 counterexample: an empty token is answered by the distinct 400
missing-token response, not the 404 NotFound the claim names, and a
matched record whose stored expiry does not parse raises instead of
returning either error. -/
theorem C2_counterexample :
    handle_verification_click storeIssued nowEarly (some "")
      = Except.ok (ClickResponse.missingToken, storeIssued)
  ∧ ClickResponse.missingToken.status = 400
  ∧ ¬ ClickResponse.missingToken = ClickResponse.notFound
  ∧ ClickResponse.notFound.status = 404
  ∧ handle_verification_click [("u1", uGarbage)] nowEarly (some "tok")
      = Except.error PyError.valueError :=
  ⟨rfl, rfl, by decide, rfl, rfl⟩

/-- C2 amended: an empty or absent token is answered by the dedicated
missing-token 400; NotFound is answered when no record matches or the
matched record lacks a truthy expires; Expired is answered when the stored
expires parses to an aware instant strictly before the aware current time;
a stored expires that does not parse to an aware instant raises instead of
being classified. -/
theorem C2_amended_error_classification (store : UserStore) (now : PyDateTime) :
    handle_verification_click store now Option.none = Except.ok (ClickResponse.missingToken, store)
  ∧ handle_verification_click store now (some "") = Except.ok (ClickResponse.missingToken, store)
  ∧ (∀ t, ¬ t = "" → queryByToken store t = Option.none →
      handle_verification_click store now (some t) = Except.ok (ClickResponse.notFound, store))
  ∧ (∀ t uid u, ¬ t = "" → queryByToken store t = some (uid, u) →
      (vexpires u = Option.none ∨ vexpires u = some "") →
      handle_verification_click store now (some t) = Except.ok (ClickResponse.notFound, store))
  ∧ (∀ t uid u es e, ¬ t = "" → queryByToken store t = some (uid, u) →
      vexpires u = some es → ¬ es = "" → fromIso es = some e →
      now.utcOffsetMinutes.isSome = true → e.utcOffsetMinutes.isSome = true →
      toInstant e < toInstant now →
      handle_verification_click store now (some t) = Except.ok (ClickResponse.expired, store)) :=
  ⟨rfl, rfl,
   fun t ht hq => click_notFound_of_no_match store now t ht hq,
   fun t uid u ht hq hes => click_notFound_of_no_expires store now t uid u ht hq hes,
   fun t uid u es e ht hq hes hesne hparse ho he hlt =>
     click_expired_of store now t uid u es e ht hq hes hesne hparse ho he hlt⟩

/-- C2 witness: the no-match and the expired branches at concrete inputs. -/
theorem C2_amended_witness :
    handle_verification_click storeIssued nowLate (some "missing")
      = Except.ok (ClickResponse.notFound, storeIssued)
  ∧ handle_verification_click storeIssued nowLate (some "tok")
      = Except.ok (ClickResponse.expired, storeIssued) := by
  have h := C2_amended_error_classification storeIssued nowLate
  exact ⟨h.2.2.1 "missing" (by decide) rfl,
    h.2.2.2.2 "tok" "u1" uIssued "2030-01-01T00:00:00+00:00" expSample
      (by decide) rfl rfl (by decide) rfl rfl rfl (by decide)⟩

/-- C4: a matched record whose parsed expiry is strictly before the aware
current time is answered Expired, and the store is returned unchanged: the
record keeps its token and expiry and is not marked verified. -/
theorem C4_expired_leaves_record_unchanged (store : UserStore) (now : PyDateTime)
    (t uid : String) (u : UserRecord) (es : String) (e : PyDateTime)
    (ht : ¬ t = "") (hq : queryByToken store t = some (uid, u))
    (hes : vexpires u = some es) (hesne : ¬ es = "")
    (hparse : fromIso es = some e)
    (ho : now.utcOffsetMinutes.isSome = true) (he : e.utcOffsetMinutes.isSome = true)
    (hlt : toInstant e < toInstant now) :
    handle_verification_click store now (some t) = Except.ok (ClickResponse.expired, store) :=
  click_expired_of store now t uid u es e ht hq hes hesne hparse ho he hlt

/-- C4 witness: the second sample record, expired relative to the late
sample time. -/
theorem C4_witness :
    queryByToken [("u9", uIssued2)] "tok2" = some ("u9", uIssued2)
  ∧ handle_verification_click [("u9", uIssued2)] nowLate (some "tok2")
      = Except.ok (ClickResponse.expired, [("u9", uIssued2)]) :=
  ⟨rfl,
   C4_expired_leaves_record_unchanged [("u9", uIssued2)] nowLate "tok2" "u9" uIssued2
     "2020-06-15T12:00:00+00:00" expSample2 (by decide) rfl rfl (by decide) rfl rfl rfl
     (by decide)⟩

/-- The record as the two success-path updates leave it: verified, with
the verification sub-record cleared. -/
def consumeUpdate (u : UserRecord) : UserRecord :=
  { u with isVerified := some true
           verification := some { token := Option.none, expires := Option.none } }

/-- Two updates under the same key compose into one. -/
theorem updateUser_comp (s : UserStore) (uid : String) (f g : UserRecord → UserRecord) :
    updateUser (updateUser s uid f) uid g = updateUser s uid (fun w => g (f w)) := by
  simp only [updateUser, List.map_map]
  congr 1
  funext p
  by_cases h : p.1 = uid <;> simp [Function.comp, h]

/-- The two success-path writes equal one update with consumeUpdate. -/
theorem click_store2_eq (store : UserStore) (uid : String) :
    updateUser (updateUser store uid (fun w => { w with isVerified := some true })) uid
      (fun w => { w with verification := some { token := Option.none, expires := Option.none } })
    = updateUser store uid consumeUpdate := by
  rw [updateUser_comp]
  rfl

/-- Matched record with a truthy expires parsing to an aware instant not
before the aware current time: the success page is returned and the store
receives the two writes. -/
theorem click_success_of (store : UserStore) (now : PyDateTime) (t uid : String)
    (u : UserRecord) (es : String) (e : PyDateTime)
    (ht : ¬ t = "") (hq : queryByToken store t = some (uid, u))
    (hes : vexpires u = some es) (hesne : ¬ es = "")
    (hparse : fromIso es = some e)
    (ho : now.utcOffsetMinutes.isSome = true) (he : e.utcOffsetMinutes.isSome = true)
    (hle : toInstant now ≤ toInstant e) :
    handle_verification_click store now (some t)
      = Except.ok (ClickResponse.success, updateUser store uid consumeUpdate) := by
  obtain ⟨a, ha⟩ := Option.isSome_iff_exists.mp ho
  obtain ⟨b, hb⟩ := Option.isSome_iff_exists.mp he
  have hnlt : ¬ toInstant e < toInstant now := not_lt.mpr hle
  rw [← click_store2_eq]
  simp [handle_verification_click, ht, hq, getD_verification_expires, hes, hesne, hparse,
    pyGT, ha, hb, hnlt]

/-- C1: a record holding an unexpired token unique to it is consumed by
one click: the handler answers success, the record is marked verified with
both verification fields cleared, and a second click with the same token
is answered NotFound with no further state change. -/
theorem C1_token_validate_and_consume_once (store : UserStore) (now : PyDateTime)
    (t uid : String) (u : UserRecord) (es : String) (e : PyDateTime)
    (ht : ¬ t = "")
    (hfind : queryByToken store t = some (uid, u))
    (huniq : ∀ p ∈ store, vtoken p.2 = some t → p.1 = uid)
    (hes : vexpires u = some es) (hesne : ¬ es = "")
    (hparse : fromIso es = some e)
    (ho : now.utcOffsetMinutes.isSome = true) (he : e.utcOffsetMinutes.isSome = true)
    (hle : toInstant now ≤ toInstant e) :
    ∃ store2,
      handle_verification_click store now (some t) = Except.ok (ClickResponse.success, store2)
      ∧ (uid, consumeUpdate u) ∈ store2
      ∧ (∀ p ∈ store2, p.1 = uid →
            p.2.isVerified = some true ∧ vtoken p.2 = Option.none ∧ vexpires p.2 = Option.none)
      ∧ (∀ now2, handle_verification_click store2 now2 (some t)
            = Except.ok (ClickResponse.notFound, store2)) := by
  refine ⟨updateUser store uid consumeUpdate,
    click_success_of store now t uid u es e ht hfind hes hesne hparse ho he hle, ?_, ?_, ?_⟩
  · have hmem : (uid, u) ∈ store := List.mem_of_find?_eq_some hfind
    have : (if (uid, u).1 = uid then ((uid, u).1, consumeUpdate (uid, u).2) else (uid, u))
        ∈ updateUser store uid consumeUpdate :=
      List.mem_map_of_mem _ hmem
    simpa [updateUser] using this
  · intro p hp hp1
    obtain ⟨q, hq, hfq⟩ := List.mem_map.mp hp
    by_cases h : q.1 = uid
    · rw [if_pos h] at hfq
      subst hfq
      simp [consumeUpdate, vtoken, vexpires]
    · rw [if_neg h] at hfq
      subst hfq
      exact absurd hp1 h
  · intro now2
    apply click_notFound_of_no_match _ now2 t ht
    apply List.find?_eq_none.mpr
    intro p hp
    simp only [beq_iff_eq]
    intro hvt
    obtain ⟨q, hq, hfq⟩ := List.mem_map.mp hp
    by_cases h : q.1 = uid
    · rw [if_pos h] at hfq
      subst hfq
      simp [consumeUpdate, vtoken] at hvt
    · rw [if_neg h] at hfq
      subst hfq
      exact h (huniq q hq hvt)

/-- C1 witness: the sample issued record, clicked before its expiry, then
clicked again. -/
theorem C1_witness :
    ∃ store2,
      handle_verification_click storeIssued nowEarly (some "tok")
        = Except.ok (ClickResponse.success, store2)
      ∧ ∀ now2, handle_verification_click store2 now2 (some "tok")
          = Except.ok (ClickResponse.notFound, store2) := by
  obtain ⟨store2, h1, _, _, h4⟩ :=
    C1_token_validate_and_consume_once storeIssued nowEarly "tok" "u1" uIssued
      "2030-01-01T00:00:00+00:00" expSample (by decide) rfl (by decide) rfl (by decide)
      rfl rfl rfl (by decide)
  exact ⟨store2, h1, h4⟩

/-- jStrings is the identity on arrays built from strings. -/
theorem jStrings_map (xs : List String) : jStrings (xs.map JVal.jstr) = xs := by
  induction xs with
  | nil => rfl
  | cons a l ih => simp [jStrings, ih]

/-- An array built from strings passes the all-strings test. -/
theorem all_isStr_map (xs : List String) : (xs.map JVal.jstr).all JVal.isStr = true := by
  induction xs with
  | nil => rfl
  | cons a l ih => simp [JVal.isStr, ih]

/-- C9 counterexample: with subject and body present, a to field that is
the bare empty string is answered by the missing-required-fields 400, not
normalized into a single-element recipient list and sent. -/
theorem C9_counterexample :
    send_informative "POST"
        (some [("subject", JVal.jstr "s"), ("body", JVal.jstr "b"), ("to", JVal.jstr "")])
        (Except.ok "r")
      = InformativeResponse.missingFields
  ∧ InformativeResponse.missingFields.status = 400
  ∧ ¬ InformativeResponse.missingFields
      = InformativeResponse.okSent [""] (JVal.jstr "s") "r" := by
  refine ⟨rfl, rfl, ?_⟩
  intro h
  exact InformativeResponse.noConfusion h

/-- C9 amended: once the required-fields check passes (subject, body and
to all truthy), a bare nonempty string to is normalized to the
single-element recipient list, a nonempty all-string array is used as-is,
and every other truthy to value is rejected with the 400 for a malformed
to; an empty string or empty array to instead hits the
missing-required-fields 400 first. -/
theorem C9_amended_to_normalization (fields : List (String × JVal)) (r : String)
    (hsubj : truthyOpt (fields.lookup "subject") = true)
    (hbody : truthyOpt (fields.lookup "body") = true) :
    (∀ s, ¬ s = "" → fields.lookup "to" = some (JVal.jstr s) →
        send_informative "POST" (some fields) (Except.ok r)
          = InformativeResponse.okSent [s] ((fields.lookup "subject").getD JVal.jnull) r)
  ∧ (∀ xs, ¬ xs = [] → fields.lookup "to" = some (JVal.jarr (xs.map JVal.jstr)) →
        send_informative "POST" (some fields) (Except.ok r)
          = InformativeResponse.okSent xs ((fields.lookup "subject").getD JVal.jnull) r)
  ∧ (∀ v, v.truthy = true → (∀ s, ¬ v = JVal.jstr s) →
        (∀ xs, v = JVal.jarr xs → xs.all JVal.isStr = false) →
        fields.lookup "to" = some v →
        send_informative "POST" (some fields) (Except.ok r)
          = InformativeResponse.badToType) := by
  refine ⟨?_, ?_, ?_⟩
  · intro s hs hlook
    have hto : truthyOpt (some (JVal.jstr s)) = true := by
      simp [truthyOpt, JVal.truthy, hs]
    simp [send_informative, send_informative.sendWith, hlook, hsubj, hbody, hto]
  · intro xs hxs hlook
    have hto : truthyOpt (some (JVal.jarr (xs.map JVal.jstr))) = true := by
      cases xs with
      | nil => exact absurd rfl hxs
      | cons a l => simp [truthyOpt, JVal.truthy]
    simp [send_informative, send_informative.sendWith, hlook, hsubj, hbody, hto,
      all_isStr_map, jStrings_map]
  · intro v hv hnstr hnarr hlook
    have hto : truthyOpt (some v) = true := by simp [truthyOpt, hv]
    cases v with
    | jnull => simp [JVal.truthy] at hv
    | jbool b => simp [send_informative, hlook, hsubj, hbody, hto]
    | jnum n => simp [send_informative, hlook, hsubj, hbody, hto]
    | jstr s => exact absurd rfl (hnstr s)
    | jarr xs => simp [send_informative, hlook, hsubj, hbody, hto, hnarr xs rfl]

/-- C9 witness: a bare string to is sent to the one-element list, and an
array containing a number is rejected with the malformed-to 400. -/
theorem C9_amended_witness :
    send_informative "POST"
        (some [("subject", JVal.jstr "s"), ("body", JVal.jstr "b"), ("to", JVal.jstr "a@b.com")])
        (Except.ok "r")
      = InformativeResponse.okSent ["a@b.com"] (JVal.jstr "s") "r"
  ∧ send_informative "POST"
        (some [("subject", JVal.jstr "s"), ("body", JVal.jstr "b"),
               ("to", JVal.jarr [JVal.jstr "a@b.com", JVal.jnum ⟨5, 0⟩])])
        (Except.ok "r")
      = InformativeResponse.badToType := by
  constructor
  · exact (C9_amended_to_normalization
      [("subject", JVal.jstr "s"), ("body", JVal.jstr "b"), ("to", JVal.jstr "a@b.com")] "r"
      rfl rfl).1 "a@b.com" (by decide) rfl
  · refine (C9_amended_to_normalization
      [("subject", JVal.jstr "s"), ("body", JVal.jstr "b"),
       ("to", JVal.jarr [JVal.jstr "a@b.com", JVal.jnum ⟨5, 0⟩])] "r"
      rfl rfl).2.2 (JVal.jarr [JVal.jstr "a@b.com", JVal.jnum ⟨5, 0⟩]) rfl
      (fun s h => JVal.noConfusion h) ?_ rfl
    intro xs hx
    injection hx with h
    subst h
    rfl

end Finsync
